import Mathlib

/-
  Verification development for the subprocess RPC transport of the Pokedex
  repository (src/mcp_client.py).  The Python classes MCPClient and
  PokemonTCGMCPClient are shallowly embedded: JSON values decoded from the
  child's stdout become an inductive `Val`; the thread-safe response queue
  together with the timing of `queue.get` calls becomes a finite trace of
  `SliceEvent`s (either a decoded message was popped, or a wait slice
  elapsed empty while the process was observed alive or dead); Python
  exceptions raised by the untyped result-parsing code become `Except PyErr`;
  environment behaviour that the code observes (whether `subprocess.Popen`
  raises, whether `stdin.write` raises, what `poll()` returns) becomes
  explicit boolean parameters.
-/

namespace Pokedex

/-- JSON-like values, as produced by `json.loads` on a line of the child's
stdout and consumed by the untyped Python result-parsing code.  Floats are
not modelled; ids in this protocol are integers. -/
inductive Val : Type where
  | null : Val
  | bool : Bool → Val
  | num : Int → Val
  | str : String → Val
  | arr : List Val → Val
  | obj : List (String × Val) → Val

/-- Python exceptions that the embedded fragments of mcp_client.py can raise. -/
inductive PyErr : Type where
  | typeError
  | attributeError
  | keyError
deriving DecidableEq

/-- First-match lookup in an association list, modelling Python dict lookup
(dicts decoded by `json.loads` have unique keys). -/
def objLookup : List (String × Val) → String → Option Val
  | [], _ => none
  | (k', v) :: rest, k => if k' == k then some v else objLookup rest k

/-- Python truthiness of a value (`if result:` etc.). -/
def Val.truthy : Val → Bool
  | .null => false
  | .bool b => b
  | .num n => n != 0
  | .str s => s != ""
  | .arr xs => !xs.isEmpty
  | .obj kvs => !kvs.isEmpty

/-- Python `v == s` where `s` is a string literal: only a string compares
equal to a string; every other value compares unequal without error. -/
def valEqStr : Val → String → Bool
  | .str s, t => s == t
  | _, _ => false

/-- Python `v == e` where `e` is the integer request id.  Python treats
`True == 1` and `False == 0` as true (bool is a subclass of int); any other
value compares unequal without error. -/
def valEqNat : Val → Nat → Bool
  | .num z, e => z == (e : Int)
  | .bool b, e => (if b then (1 : Int) else 0) == (e : Int)
  | _, _ => false

/-- Python `needle in container` for a string needle: key membership for a
dict, substring test for a string, element equality for a list, and a
TypeError otherwise. -/
def pyIn (needle : String) : Val → Except PyErr Bool
  | .obj kvs => .ok (objLookup kvs needle).isSome
  | .str s => .ok ((s.splitOn needle).length > 1)
  | .arr xs => .ok (xs.any fun v => valEqStr v needle)
  | _ => .error .typeError

/-- Python `container[key]` for a string key: dict lookup (KeyError when the
key is absent), TypeError on every non-dict. -/
def pyGetItem (container : Val) (key : String) : Except PyErr Val :=
  match container with
  | .obj kvs =>
    match objLookup kvs key with
    | some v => .ok v
    | none => .error .keyError
  | _ => .error .typeError

/-- Python iteration `for x in container`: a list yields its elements, a
string its characters, a dict its keys; TypeError otherwise. -/
def pyIter : Val → Except PyErr (List Val)
  | .arr xs => .ok xs
  | .str s => .ok (s.toList.map fun c => .str (String.mk [c]))
  | .obj kvs => .ok (kvs.map fun kv => .str kv.1)
  | _ => .error .typeError

/-- Python `container.get(key)`: defined on dicts only (null default),
AttributeError on every other value. -/
def pyGet (v : Val) (key : String) : Except PyErr Val :=
  match v with
  | .obj kvs => .ok ((objLookup kvs key).getD .null)
  | _ => .error .attributeError

/-- Python `len(v)`: defined on strings, lists and dicts; TypeError on
numbers, booleans and None. -/
def pyLen : Val → Except PyErr Nat
  | .str s => .ok s.length
  | .arr xs => .ok xs.length
  | .obj kvs => .ok kvs.length
  | _ => .error .typeError

/-- Python `v[:500]`: slicing a string or list; TypeError on a dict (which
is the only other value on which the preceding `len` succeeds). -/
def pySlice500 : Val → Except PyErr Val
  | .str s => .ok (.str ⟨s.toList.take 500⟩)
  | .arr xs => .ok (.arr (xs.take 500))
  | _ => .error .typeError

/-- The projection of a decoded response dict that MCPClient inspects:
`response.get("id")`, the presence and value of the `result` key, and the
presence and value of the `error` key.  A field is `none` when the key is
absent from the dict. -/
structure Resp : Type where
  id? : Option Val
  result? : Option Val
  error? : Option Val

/-- One iteration of the wait loop of `MCPClient._send_request`: either
`self.response_queue.get(...)` returned a decoded message within the wait
slice, or the slice elapsed with `queue.Empty` while `self.process.poll()`
was observed to be `None` (`procAlive = true`) or a non-null exit status
(`procAlive = false`).  A finite trace of these events is the shallow
embedding of the queue together with wall-clock time: the end of the trace
is the exhaustion of the timeout budget. -/
inductive SliceEvent : Type where
  | msg (r : Resp)
  | empty (procAlive : Bool)

/-- The three ways the wait loop of `_send_request` can finish: a response
whose id matched was returned, the process was observed dead during an
empty slice (return None immediately), or the timeout budget ran out
(return None). -/
inductive CallOutcome : Type where
  | matched (r : Resp)
  | processDied
  | timedOut

/-- The test `response.get("id") == expected_id` from `_send_request`. -/
def respMatches (r : Resp) (e : Nat) : Bool :=
  match r.id? with
  | some v => valEqNat v e
  | none => false

/-- The wait loop of `_send_request` (mcp_client.py lines 150-178): pop the
next event; a message with the expected id is returned, a message with any
other id is logged and discarded, an empty slice continues waiting if the
process is alive and returns immediately if it has died; an exhausted trace
is the timeout.  Also returns the events not consumed, i.e. the contents of
the shared queue as later calls will see them. -/
def waitLoop (e : Nat) : List SliceEvent → CallOutcome × List SliceEvent
  | [] => (.timedOut, [])
  | .msg r :: rest => if respMatches r e then (.matched r, rest) else waitLoop e rest
  | .empty alive :: rest => if alive then waitLoop e rest else (.processDied, rest)

/-- Collapse a `CallOutcome` to the `Optional[Dict]` that `_send_request`
returns: only a matched response is non-None. -/
def outcomeResp : CallOutcome → Option Resp
  | .matched r => some r
  | .processDied => none
  | .timedOut => none

/-- Envelope transmissions performed by MCPClient, recorded as a trace so
that ordering claims can be stated: a Request Envelope with its id and
method, the one-way Notification Envelope (recorded at the point
`_send_notification` is invoked), and the assignment
`self._initialized = True`. -/
inductive Action : Type where
  | sendReq (id : Nat) (method : String)
  | sendNote (method : String)
  | setInitialized
deriving DecidableEq

/-- The mutable state of one `MCPClient` instance: whether `self.process`
is a process handle (vs `None`), the request id counter, the response queue
(as the trace of future pop outcomes), the `self.running` flag and the
`self._initialized` flag. -/
structure ClientState : Type where
  hasProcess : Bool
  requestId : Nat
  inbox : List SliceEvent
  running : Bool
  initialized : Bool

/-- The state of a freshly constructed `MCPClient.__init__`: no process,
request id 0, empty queue, not running, not initialized. -/
def resetState : ClientState :=
  { hasProcess := false, requestId := 0, inbox := [], running := false
    initialized := false }

/-- `MCPClient._send_request` (lines 127-182): bail out with None when there
is no process; otherwise increment the id counter, attempt the framed write
(`writeOk = false` models `stdin.write` raising, which the except clause
turns into None — note the id was already consumed), then run the wait
loop.  Returns the response (or None), the successor state, and the
transmitted envelopes. -/
def sendRequest (s : ClientState) (method : String) (writeOk : Bool) :
    Option Resp × ClientState × List Action :=
  if s.hasProcess then
    let newId := s.requestId + 1
    if writeOk then
      let wl := waitLoop newId s.inbox
      (outcomeResp wl.1, { s with requestId := newId, inbox := wl.2 },
        [.sendReq newId method])
    else (none, { s with requestId := newId }, [])
  else (none, s, [])

/-- `MCPClient._initialize` (lines 76-91): send the `initialize` request;
on any response (the code tests only `if response:`, which holds for every
matched response dict since it contains the id key) invoke
`_send_notification("notifications/initialized", ...)` and then set
`self._initialized = True`; on None leave the flag untouched. -/
def handshake (s : ClientState) (writeOk : Bool) : ClientState × List Action :=
  match sendRequest s "initialize" writeOk with
  | (some _, s', acts) =>
    ({ s' with initialized := true },
      acts ++ [.sendNote "notifications/initialized", .setInitialized])
  | (none, s', acts) => (s', acts)

/-- The environment of one `MCPClient.start` call: whether
`subprocess.Popen` raises (`spawnOk = false`), whether the initialize
request's `stdin.write` raises, and the trace of queue events the new
process generation will produce. -/
structure StartEnv : Type where
  spawnOk : Bool
  writeOk : Bool
  events : List SliceEvent

/-- `MCPClient.start` (lines 30-59): spawn the process (on failure the
except clause returns False with the state unchanged), set
`self.running = True`, start the reader threads (the new generation's
events are appended to the queue trace), run `_initialize`, and return True
— note True is returned even when the handshake fails, since `_initialize`
swallows its own failures. -/
def start (s : ClientState) (env : StartEnv) : Bool × ClientState × List Action :=
  if env.spawnOk then
    let s1 : ClientState :=
      { s with hasProcess := true, running := true, inbox := s.inbox ++ env.events }
    let h := handshake s1 env.writeOk
    (true, h.1, h.2)
  else (false, s, [])

/-- `MCPClient.stop` (lines 233-256): set `self.running = False`, terminate
the process if any (`termRaises` models `terminate`/`wait` raising, in
which case `kill` is attempted and its own failure ignored — `killRaises`),
set `self.process = None`, reset `_initialized` and the id counter, and
drain the response queue.  Every path converges to the reset state. -/
def stop (s : ClientState) (termRaises killRaises : Bool) : ClientState :=
  match s, termRaises, killRaises with
  | _, _, _ => resetState

/-- `MCPClient.is_running` (lines 258-260): the process handle exists and
`poll()` returned None (`pollAlive` is that observation). -/
def is_running (s : ClientState) (pollAlive : Bool) : Bool :=
  s.hasProcess && pollAlive

/-- `MCPClient.call_tool` (lines 202-219): reject with None when not
initialized (nothing is sent, the counter is untouched, the queue is not
read); otherwise send a `tools/call` request; a response with a `result`
key yields that value, else a response with an `error` key yields the dict
`{"error": e}`, else None. -/
def call_tool (s : ClientState) (writeOk : Bool) :
    Option Val × ClientState × List Action :=
  if s.initialized then
    match sendRequest s "tools/call" writeOk with
    | (some r, s', acts) =>
      match r.result? with
      | some v => (some v, s', acts)
      | none =>
        match r.error? with
        | some e => (some (.obj [("error", e)]), s', acts)
        | none => (none, s', acts)
    | (none, s', acts) => (none, s', acts)
  else (none, s, [])

/-- A sequence of `_send_request` calls issued one at a time against the
same client, each with its own method string and write outcome; returns the
list of per-call results. -/
def runSends : ClientState → List (String × Bool) → List (Option Resp)
  | _, [] => []
  | s, (m, w) :: rest =>
    let r := sendRequest s m w
    r.1 :: runSends r.2.1 rest

/-- Composite-level operations performed by `PokemonTCGMCPClient.search_cards`
and `get_card_price`, recorded as a trace: an invocation of
`self.client.call_tool`, of `self.stop()` and of `self.start()`. -/
inductive CAction : Type where
  | callTool
  | stopClient
  | startClient
deriving BEq, DecidableEq

/-- The error dict `{"error": msg}` built by the composite operations. -/
def errDict (msg : String) : Val := .obj [("error", .str msg)]

/-- The dict `{"error": "No response from server"}` of the composites'
final `result or ...` fallback. -/
def errNoResponse : Val := errDict "No response from server"

/-- `PokemonTCGMCPClient.start` (lines 270-287): return True at once when
the held client reports `is_running()`; fail with False (client unchanged)
when the built server entry point does not exist on disk (`distExists`);
otherwise replace the client with a freshly constructed `MCPClient` and
start it, returning that start's outcome (the new client is installed even
when its start fails). -/
def tcgStart (client : Option ClientState) (pollAlive distExists : Bool)
    (env : StartEnv) : Bool × Option ClientState :=
  match client with
  | some c =>
    if is_running c pollAlive then (true, some c)
    else if distExists then
      let st := start resetState env
      (st.1, some st.2.1)
    else (false, some c)
  | none =>
    if distExists then
      let st := start resetState env
      (st.1, some st.2.1)
    else (false, none)

/-- The environment of one `search_cards` invocation: the `poll()`
observation and start environment for the ensure-running phase, the write
outcome of the first `call_tool`, and the same three for the
restart-and-retry phase. -/
structure TcgEnv : Type where
  pollAlive : Bool
  distExists : Bool
  sEnv : StartEnv
  callWrite : Bool
  pollAlive2 : Bool
  distExists2 : Bool
  sEnv2 : StartEnv
  callWrite2 : Bool

/-- The body of the `for content in result["content"]` loop of
`search_cards` (lines 356-366), over the already-extracted list of content
items.  `parse` is `json.loads` on a text payload (None modelling
JSONDecodeError).  For the first item whose `type` is "text": read its
`text` entry (KeyError when absent), evaluate the log expression
`text_content[:500] if len(text_content) > 500 else text_content`
(TypeError on unsized or unsliceable values), then parse: success yields
`{"cards": parsed}` after the log's `len(parsed)` (TypeError on scalars),
JSONDecodeError yields `{"message": text}`; `json.loads` on a non-string
raises TypeError.  If no item matches, fall through and return the (truthy)
result dict itself. -/
def searchLoop (parse : String → Option Val) (v : Val) :
    List Val → Except PyErr Val
  | [] => .ok v
  | content :: rest =>
    match pyGet content "type" with
    | .error e => .error e
    | .ok tv =>
      if valEqStr tv "text" then
        match pyGetItem content "text" with
        | .error e => .error e
        | .ok tc =>
          match pyLen tc with
          | .error e => .error e
          | .ok n =>
            match (if n > 500 then pySlice500 tc else .ok tc) with
            | .error e => .error e
            | .ok _ =>
              match tc with
              | .str sText =>
                match parse sText with
                | some parsed =>
                  match pyLen parsed with
                  | .error e => .error e
                  | .ok _ => .ok (.obj [("cards", parsed)])
                | none => .ok (.obj [("message", .str sText)])
              | _ => .error .typeError
      else searchLoop parse v rest

/-- The result-processing tail of `search_cards` (lines 355-368), applied
to the value returned by `call_tool`: None or a falsy dict falls through to
`{"error": "No response from server"}`; a truthy value is probed for a
`content` key (`in` raising TypeError on numbers and booleans), the key is
read and iterated (TypeError on non-iterables), and the loop body runs;
with no `content` key the truthy result is returned as-is. -/
def searchPost (parse : String → Option Val) : Option Val → Except PyErr Val
  | none => .ok errNoResponse
  | some v =>
    if v.truthy then
      match pyIn "content" v with
      | .error e => .error e
      | .ok false => .ok v
      | .ok true =>
        match pyGetItem v "content" with
        | .error e => .error e
        | .ok contentVal =>
          match pyIter contentVal with
          | .error e => .error e
          | .ok items => searchLoop parse v items
    else .ok errNoResponse

/-- The call-and-maybe-restart body of `search_cards` (lines 337-368),
entered with a started client: invoke `call_tool`; on None, perform
`self.stop()` (the client is discarded) and `self.start()` (a fresh client)
and — when that start succeeds — retry `call_tool` exactly once, feeding
the retry's result to the same parsing tail; when the restart fails return
`{"error": "Failed to restart MCP server"}`.  A non-None first result goes
straight to the parsing tail. -/
def searchBody (client : Option ClientState) (env : TcgEnv)
    (parse : String → Option Val) (acts0 : List CAction) :
    List CAction × Except PyErr Val × Option ClientState :=
  match client with
  | none => (acts0, .error .attributeError, none)
  | some c =>
    match call_tool c env.callWrite with
    | (some v, c1, _) =>
      (acts0 ++ [.callTool], searchPost parse (some v), some c1)
    | (none, _, _) =>
      match tcgStart none env.pollAlive2 env.distExists2 env.sEnv2 with
      | (true, some c2) =>
        let ct := call_tool c2 env.callWrite2
        (acts0 ++ [.callTool, .stopClient, .startClient, .callTool],
          searchPost parse ct.1, some ct.2.1)
      | (true, none) =>
        (acts0 ++ [.callTool, .stopClient, .startClient],
          .error .attributeError, none)
      | (false, cl2) =>
        (acts0 ++ [.callTool, .stopClient, .startClient],
          .ok (errDict "Failed to restart MCP server"), cl2)

/-- `PokemonTCGMCPClient.search_cards` (lines 289-368): when no client is
held or it is not running, `self.start()` first, returning
`{"error": "Failed to start MCP server"}` if that fails; then the
call-and-maybe-restart body. -/
def search_cards (client : Option ClientState) (env : TcgEnv)
    (parse : String → Option Val) :
    List CAction × Except PyErr Val × Option ClientState :=
  let running0 := match client with
    | some c => is_running c env.pollAlive
    | none => false
  if running0 then searchBody client env parse []
  else
    match tcgStart client env.pollAlive env.distExists env.sEnv with
    | (true, client1) => searchBody client1 env parse [.startClient]
    | (false, client1) =>
      ([.startClient], .ok (errDict "Failed to start MCP server"), client1)

/-- The environment of one `get_card_price` invocation: the `poll()`
observation and start environment for the ensure-running phase and the
write outcome of the single `call_tool`. -/
structure PriceEnv : Type where
  pollAlive : Bool
  distExists : Bool
  sEnv : StartEnv
  callWrite : Bool

/-- The body of the `for content in result["content"]` loop of
`get_card_price` (lines 379-384): for the first item whose `type` is
"text", `json.loads(content["text"])` is returned directly (KeyError when
the `text` key is absent, TypeError when its value is not a string, both
uncaught); JSONDecodeError yields `{"message": text}`. -/
def priceLoop (parse : String → Option Val) (v : Val) :
    List Val → Except PyErr Val
  | [] => .ok v
  | content :: rest =>
    match pyGet content "type" with
    | .error e => .error e
    | .ok tv =>
      if valEqStr tv "text" then
        match pyGetItem content "text" with
        | .error e => .error e
        | .ok tc =>
          match tc with
          | .str sText =>
            match parse sText with
            | some parsed => .ok parsed
            | none => .ok (.obj [("message", .str sText)])
          | _ => .error .typeError
      else priceLoop parse v rest

/-- The result-processing tail of `get_card_price` (lines 378-386),
mirroring `searchPost` but returning the parsed payload directly. -/
def pricePost (parse : String → Option Val) : Option Val → Except PyErr Val
  | none => .ok errNoResponse
  | some v =>
    if v.truthy then
      match pyIn "content" v with
      | .error e => .error e
      | .ok false => .ok v
      | .ok true =>
        match pyGetItem v "content" with
        | .error e => .error e
        | .ok contentVal =>
          match pyIter contentVal with
          | .error e => .error e
          | .ok items => priceLoop parse v items
    else .ok errNoResponse

/-- `PokemonTCGMCPClient.get_card_price` (lines 370-386): ensure the client
is running exactly as `search_cards` does, invoke `call_tool` once, and
process the result — there is no restart-and-retry on a None result. -/
def get_card_price (client : Option ClientState) (env : PriceEnv)
    (parse : String → Option Val) :
    List CAction × Except PyErr Val × Option ClientState :=
  let running0 := match client with
    | some c => is_running c env.pollAlive
    | none => false
  let afterStart :=
    if running0 then (true, client, ([] : List CAction))
    else
      match tcgStart client env.pollAlive env.distExists env.sEnv with
      | (ok, client1) => (ok, client1, [CAction.startClient])
  match afterStart with
  | (false, client1, acts0) =>
    (acts0, .ok (errDict "Failed to start MCP server"), client1)
  | (true, none, acts0) => (acts0, .error .attributeError, none)
  | (true, some c, acts0) =>
    let ct := call_tool c env.callWrite
    (acts0 ++ [.callTool], pricePost parse ct.1, some ct.2.1)

theorem waitLoop_matched (e : Nat) (evs : List SliceEvent) :
    ∀ r : Resp, (waitLoop e evs).1 = CallOutcome.matched r →
      respMatches r e = true := by
  induction evs with
  | nil => intro r h; simp [waitLoop] at h
  | cons ev tl ih =>
    intro r h
    cases ev with
    | msg r' =>
      by_cases hm : respMatches r' e = true
      · simp [waitLoop, hm] at h
        rw [← h]; exact hm
      · simp [waitLoop, hm] at h
        exact ih r h
    | empty alive =>
      cases alive with
      | true => simp [waitLoop] at h; exact ih r h
      | false => simp [waitLoop] at h

theorem waitLoop_drop (e : Nat) (evs : List SliceEvent) :
    ∃ k, (waitLoop e evs).2 = evs.drop k := by
  induction evs with
  | nil => exact ⟨0, rfl⟩
  | cons ev tl ih =>
    obtain ⟨k, hk⟩ := ih
    cases ev with
    | msg r' =>
      by_cases hm : respMatches r' e = true
      · exact ⟨1, by simp [waitLoop, hm]⟩
      · exact ⟨k + 1, by simp [waitLoop, hm, hk]⟩
    | empty alive =>
      cases alive with
      | true => exact ⟨k + 1, by simp [waitLoop, hk]⟩
      | false => exact ⟨1, by simp [waitLoop]⟩

theorem sendRequest_matches (s : ClientState) (m : String) (w : Bool) (r : Resp)
    (h : (sendRequest s m w).1 = some r) :
    respMatches r (s.requestId + 1) = true := by
  by_cases hp : s.hasProcess = true
  · cases w with
    | false => simp [sendRequest, hp] at h
    | true =>
      simp only [sendRequest, hp, if_true] at h
      cases ho : (waitLoop (s.requestId + 1) s.inbox).1 with
      | matched r' =>
        rw [ho] at h
        simp [outcomeResp] at h
        rw [← h]
        exact waitLoop_matched _ _ r' ho
      | processDied => rw [ho] at h; simp [outcomeResp] at h
      | timedOut => rw [ho] at h; simp [outcomeResp] at h
  · simp [sendRequest, hp] at h

theorem sendRequest_requestId (s : ClientState) (m : String) (w : Bool)
    (hp : s.hasProcess = true) :
    (sendRequest s m w).2.1.requestId = s.requestId + 1 ∧
    (sendRequest s m w).2.1.hasProcess = true := by
  cases w <;> simp [sendRequest, hp]

theorem sendRequest_initialized (s : ClientState) (m : String) (w : Bool) :
    (sendRequest s m w).2.1.initialized = s.initialized := by
  by_cases hp : s.hasProcess = true <;> cases w <;> simp [sendRequest, hp]

theorem runSends_matched (calls : List (String × Bool)) :
    ∀ (s : ClientState) (i : Nat) (r : Resp),
      s.hasProcess = true →
      (runSends s calls)[i]? = some (some r) →
      respMatches r (s.requestId + i + 1) = true := by
  induction calls with
  | nil => intro s i r _ h; simp [runSends] at h
  | cons c tl ih =>
    intro s i r hp h
    obtain ⟨m, w⟩ := c
    cases i with
    | zero =>
      simp [runSends] at h
      exact sendRequest_matches s m w r h
    | succ i' =>
      simp [runSends] at h
      have hst := sendRequest_requestId s m w hp
      have hrec := ih (sendRequest s m w).2.1 i' r hst.2 h
      rw [hst.1] at hrec
      have harith : s.requestId + 1 + i' + 1 = s.requestId + (i' + 1) + 1 := by omega
      rw [harith] at hrec
      exact hrec

/-- C1: correlation correctness with stale discard.  For any one-at-a-time
sequence of `_send_request` calls, every returned Response Envelope
satisfies the id test against the id of the Request Envelope that the very
same call transmitted (the i-th call of the sequence transmits id
`requestId + i + 1`); in particular when the envelope's id is an integer it
equals that transmitted id exactly.  Moreover each call leaves the queue
trace a drop-suffix of what it found: every envelope it popped — matched or
discarded as stale — is consumed for good and can never be returned by a
later call. -/
theorem c1_correlation :
    (∀ (s : ClientState) (calls : List (String × Bool)) (i : Nat) (r : Resp),
      s.hasProcess = true →
      (runSends s calls)[i]? = some (some r) →
      respMatches r (s.requestId + i + 1) = true ∧
      ∀ z : Int, r.id? = some (.num z) → z = ((s.requestId + i + 1 : Nat) : Int)) ∧
    (∀ (s : ClientState) (m : String) (w : Bool),
      ∃ k, (sendRequest s m w).2.1.inbox = s.inbox.drop k) := by
  constructor
  · intro s calls i r hp h
    have hm := runSends_matched calls s i r hp h
    refine ⟨hm, ?_⟩
    intro z hz
    rw [respMatches, hz] at hm
    simp only [valEqNat] at hm
    exact eq_of_beq hm
  · intro s m w
    by_cases hp : s.hasProcess = true
    · cases w with
      | false => exact ⟨0, by simp [sendRequest, hp]⟩
      | true =>
        obtain ⟨k, hk⟩ := waitLoop_drop (s.requestId + 1) s.inbox
        refine ⟨k, ?_⟩
        simp only [sendRequest, hp, if_true]
        exact hk
    · exact ⟨0, by simp [sendRequest, hp]⟩

/-- A concrete response envelope carrying id 1, used by witnesses. -/
def wResp1 : Resp := ⟨some (.num 1), none, none⟩

/-- A concrete running, initialized client whose queue holds a stale
envelope with id 5 followed by the reply with id 1. -/
def wState1 : ClientState :=
  ⟨true, 0, [.msg ⟨some (.num 5), none, none⟩, .msg wResp1], true, true⟩

theorem c1_correlation_witness :
    respMatches wResp1 (wState1.requestId + 0 + 1) = true :=
  (c1_correlation.1 wState1 [("tools/call", true)] 0 wResp1 rfl rfl).1

/-- The id of the first Request Envelope actually written to the child's
stdin among a trace of transmissions. -/
def firstReqId (acts : List Action) : Option Nat :=
  acts.findSome? fun a =>
    match a with
    | .sendReq i _ => some i
    | _ => none

theorem handshake_firstReq (s : ClientState) (w : Bool) (i : Nat)
    (h : firstReqId (handshake s w).2 = some i) : i = s.requestId + 1 := by
  by_cases hp : s.hasProcess = true
  · cases w with
    | false => simp [handshake, sendRequest, hp, firstReqId] at h
    | true =>
      simp only [handshake, sendRequest, hp, if_true] at h
      cases ho : (waitLoop (s.requestId + 1) s.inbox).1 with
      | matched r' =>
        rw [ho] at h
        simp [outcomeResp, firstReqId, List.findSome?] at h
        omega
      | processDied =>
        rw [ho] at h
        simp [outcomeResp, firstReqId, List.findSome?] at h
        omega
      | timedOut =>
        rw [ho] at h
        simp [outcomeResp, firstReqId, List.findSome?] at h
        omega
  · simp [handshake, sendRequest, hp, firstReqId] at h

/-- C2: cross-generation isolation.  `stop()` drains the queue and resets
the id counter, and the whole post-`stop()` state is the reset state, so a
subsequent `start()` behaves exactly as a start from a fresh client: the
queue seen by the new generation holds only the new generation's events,
never an envelope of the old one, and the first Request Envelope
transmitted after the restart (the initialize request) carries id 1. -/
theorem c2_generation_isolation :
    ∀ (s : ClientState) (t k : Bool) (env : StartEnv),
      (stop s t k).inbox = [] ∧
      (stop s t k).requestId = 0 ∧
      start (stop s t k) env = start resetState env ∧
      (∀ i, firstReqId (start (stop s t k) env).2.2 = some i → i = 1) := by
  intro s t k env
  have hs : stop s t k = resetState := rfl
  refine ⟨rfl, rfl, by rw [hs], ?_⟩
  intro i hi
  rw [hs] at hi
  by_cases hsp : env.spawnOk = true
  · simp only [start, hsp, if_true] at hi
    have hq := handshake_firstReq _ _ _ hi
    simpa [resetState] using hq
  · rw [Bool.not_eq_true] at hsp
    simp [start, hsp, firstReqId, List.findSome?] at hi

theorem c2_generation_isolation_witness :
    (stop ⟨true, 7, [SliceEvent.msg wResp1], true, true⟩ true false).inbox = [] ∧
    (1 : Nat) = 1 :=
  ⟨(c2_generation_isolation ⟨true, 7, [SliceEvent.msg wResp1], true, true⟩
      true false ⟨true, true, []⟩).1,
    (c2_generation_isolation ⟨true, 7, [SliceEvent.msg wResp1], true, true⟩
      true false ⟨true, true, []⟩).2.2.2 1 rfl⟩

theorem sendRequest_some_acts (s : ClientState) (m : String) (w : Bool) (r : Resp)
    (h : (sendRequest s m w).1 = some r) :
    (sendRequest s m w).2.2 = [Action.sendReq (s.requestId + 1) m] := by
  by_cases hp : s.hasProcess = true
  · cases w with
    | false => simp [sendRequest, hp] at h
    | true => simp [sendRequest, hp]
  · simp [sendRequest, hp] at h

theorem sendRequest_acts (s : ClientState) (m : String) (w : Bool) :
    (sendRequest s m w).2.2 = [] ∨
    (sendRequest s m w).2.2 = [Action.sendReq (s.requestId + 1) m] := by
  by_cases hp : s.hasProcess = true <;> cases w <;> simp [sendRequest, hp]

/-- Ordering property of a transmission trace: every occurrence of the
assignment of the initialized flag is preceded by the readiness
notification. -/
def noteBeforeSet (acts : List Action) : Prop :=
  ∀ i : Nat, acts[i]? = some Action.setInitialized →
    ∃ j : Nat, j < i ∧
      acts[j]? = some (Action.sendNote "notifications/initialized")

theorem noteBeforeSet_nil : noteBeforeSet [] := by
  intro i hi
  simp at hi

theorem noteBeforeSet_single (n : Nat) (m : String) :
    noteBeforeSet [Action.sendReq n m] := by
  intro i hi
  match i with
  | 0 => simp at hi
  | j + 1 => simp at hi

theorem noteBeforeSet_three (n : Nat) (m : String) :
    noteBeforeSet [Action.sendReq n m,
      Action.sendNote "notifications/initialized", Action.setInitialized] := by
  intro i hi
  match i with
  | 0 => simp at hi
  | 1 => simp at hi
  | 2 => exact ⟨1, by omega, rfl⟩
  | j + 3 => simp at hi

/-- An initialize reply that is an error Response Envelope: it has an
`error` member and no `result` member. -/
def errResp : Resp := ⟨some (.num 1), none, some (.str "boom")⟩

/-- A client just after spawning, whose new process generation answers the
initialize request with the error envelope `errResp`. -/
def cFresh : ClientState := ⟨true, 0, [.msg errResp], true, false⟩

/-- C5 counterexample: the claim says the session becomes initialized only
upon a non-error Response Envelope, but `_initialize` only tests
`if response:`, so a matched reply whose body is an error object still sets
the initialized flag. -/
theorem c5_counterexample :
    errResp.error? = some (.str "boom") ∧
    errResp.result? = none ∧
    (handshake cFresh true).1.initialized = true :=
  ⟨rfl, rfl, rfl⟩

/-- C5 (amended): the session becomes initialized exactly when the
initialization request returns a matching Response Envelope of either kind
— error replies included, since the code tests only `if response:`; when it
does, the readiness notification is invoked before the initialized flag is
set; and when the initialization request yields no response the flag is
left unchanged, so subsequent `call_tool` invocations are rejected with
None. -/
theorem c5_handshake_readiness :
    ∀ (s : ClientState) (w : Bool),
      (s.initialized = false →
        ((handshake s w).1.initialized = true ↔
          (sendRequest s "initialize" w).1.isSome = true)) ∧
      noteBeforeSet (handshake s w).2 ∧
      (∀ w' : Bool, (sendRequest s "initialize" w).1 = none →
        s.initialized = false →
        (handshake s w).1.initialized = false ∧
        (call_tool (handshake s w).1 w').1 = none) := by
  intro s w
  rcases hsr : sendRequest s "initialize" w with ⟨r?, s2, acts⟩
  have h1 : (sendRequest s "initialize" w).1 = r? := by rw [hsr]
  have h2 : (sendRequest s "initialize" w).2.1 = s2 := by rw [hsr]
  have h3 : (sendRequest s "initialize" w).2.2 = acts := by rw [hsr]
  have hinit : s2.initialized = s.initialized := by
    rw [← h2]
    exact sendRequest_initialized s "initialize" w
  cases r? with
  | some r =>
    have hacts : acts = [Action.sendReq (s.requestId + 1) "initialize"] := by
      rw [← h3]
      exact sendRequest_some_acts s "initialize" w r h1
    refine ⟨?_, ?_, ?_⟩
    · intro _hs0
      simp [handshake, hsr, h1]
    · simp only [handshake, hsr]
      rw [hacts]
      exact noteBeforeSet_three _ _
    · intro w' hnone
      simp at hnone
  | none =>
    refine ⟨?_, ?_, ?_⟩
    · intro hs0
      simp only [handshake, hsr]
      rw [hinit, hs0]
      simp
    · simp only [handshake, hsr]
      rcases sendRequest_acts s "initialize" w with ha | ha
      · rw [h3] at ha
        rw [ha]
        exact noteBeforeSet_nil
      · rw [h3] at ha
        rw [ha]
        exact noteBeforeSet_single _ _
    · intro w' _hnone hs0
      have hf : s2.initialized = false := by rw [hinit, hs0]
      simp only [handshake, hsr]
      exact ⟨hf, by simp [call_tool, hf]⟩

theorem c5_handshake_readiness_witness :
    ((handshake cFresh true).1.initialized = true ↔
      (sendRequest cFresh "initialize" true).1.isSome = true) :=
  (c5_handshake_readiness cFresh true).1 rfl

/-- C6: fail-fast before Ready.  `call_tool` on a client that is not
initialized returns None at once: the state is untouched (no id counter
increment, no queue consumption) and nothing is transmitted. -/
theorem c6_fail_fast :
    ∀ (s : ClientState) (w : Bool), s.initialized = false →
      call_tool s w = (none, s, []) := by
  intro s w h
  simp [call_tool, h]

theorem c6_fail_fast_witness :
    call_tool resetState true = (none, resetState, []) :=
  c6_fail_fast resetState true rfl

/-- An event of the wait loop that neither returns nor aborts: a message
with a non-matching id (discarded), or an empty slice with the process
still alive (continue waiting). -/
def nonTerm (e : Nat) : SliceEvent → Prop
  | .msg r => respMatches r e = false
  | .empty alive => alive = true

theorem waitLoop_dead (e : Nat) (post : List SliceEvent) :
    ∀ pre : List SliceEvent, (∀ ev ∈ pre, nonTerm e ev) →
      waitLoop e (pre ++ SliceEvent.empty false :: post) =
        (CallOutcome.processDied, post) := by
  intro pre
  induction pre with
  | nil => intro _; simp [waitLoop]
  | cons ev tl ih =>
    intro hall
    have hev := hall ev (List.mem_cons_self ev tl)
    have htl : ∀ x ∈ tl, nonTerm e x := fun x hx =>
      hall x (List.mem_cons_of_mem ev hx)
    cases ev with
    | msg r =>
      have hr : respMatches r e = false := hev
      simp [waitLoop, hr, ih htl]
    | empty alive =>
      have ha : alive = true := hev
      simp [waitLoop, ha, ih htl]

/-- C7: death detection.  When the queue trace of an in-flight call reaches
an empty wait slice during which the process is observed dead — after any
prefix of discarded stale messages and alive empty slices — `_send_request`
returns None at that very slice: the events after the dead slice are left
unconsumed, i.e. the call does not wait out the remainder of the timeout
budget. -/
theorem c7_death_detection :
    ∀ (s : ClientState) (m : String) (pre post : List SliceEvent),
      s.hasProcess = true →
      (∀ ev ∈ pre, nonTerm (s.requestId + 1) ev) →
      s.inbox = pre ++ SliceEvent.empty false :: post →
      sendRequest s m true =
        (none, { s with requestId := s.requestId + 1, inbox := post },
          [Action.sendReq (s.requestId + 1) m]) := by
  intro s m pre post hp hall hin
  have hw := waitLoop_dead (s.requestId + 1) post pre hall
  simp [sendRequest, hp, hin, hw, outcomeResp]

theorem c7_death_detection_witness :
    sendRequest ⟨true, 0, [SliceEvent.empty false], true, true⟩ "tools/call" true =
      (none, ⟨true, 1, [], true, true⟩, [Action.sendReq 1 "tools/call"]) :=
  c7_death_detection ⟨true, 0, [SliceEvent.empty false], true, true⟩
    "tools/call" [] [] rfl (by simp) rfl

/-- C8: idempotent stop.  `stop()` never fails regardless of whether
terminate or kill raise (both failure flags are absorbed), a second
`stop()` is a no-op, `stop()` before any `start()` (i.e. on the fresh
reset state) is a no-op, and after any `stop()` the client reports not
running for every poll observation, is not initialized, and has its id
counter and queue in the reset state. -/
theorem c8_idempotent_stop :
    ∀ (s : ClientState) (t1 k1 t2 k2 p : Bool),
      stop (stop s t1 k1) t2 k2 = stop s t1 k1 ∧
      stop resetState t1 k1 = resetState ∧
      is_running (stop s t1 k1) p = false ∧
      (stop s t1 k1).initialized = false ∧
      (stop s t1 k1).requestId = 0 ∧
      (stop s t1 k1).inbox = [] := by
  intro s t1 k1 t2 k2 p
  refine ⟨rfl, rfl, ?_, rfl, rfl, rfl⟩
  simp [is_running, stop, resetState]

/-- Occurrence count of a composite-level action in a trace. -/
def countA (a : CAction) : List CAction → Nat
  | [] => 0
  | b :: l => (if b = a then 1 else 0) + countA a l

theorem countA_append (a : CAction) (l1 l2 : List CAction) :
    countA a (l1 ++ l2) = countA a l1 + countA a l2 := by
  induction l1 with
  | nil => simp [countA]
  | cons b l ih => simp [countA, ih]; omega

theorem tcgStart_true_some (client : Option ClientState) (p d : Bool)
    (env : StartEnv) (cl : Option ClientState)
    (h : tcgStart client p d env = (true, cl)) : ∃ c2, cl = some c2 := by
  cases client with
  | some c =>
    by_cases hr : is_running c p = true
    · simp [tcgStart, hr] at h
      exact ⟨c, h.symm⟩
    · by_cases hd : d = true
      · simp [tcgStart, hr, hd] at h
        exact ⟨(start resetState env).2.1, h.2.symm⟩
      · simp [tcgStart, hr, hd] at h
  | none =>
    by_cases hd : d = true
    · simp [tcgStart, hd] at h
      exact ⟨(start resetState env).2.1, h.2.symm⟩
    · simp [tcgStart, hd] at h

theorem searchBody_null_trace (c : ClientState) (env : TcgEnv)
    (parse : String → Option Val) (acts0 : List CAction)
    (hnone : (call_tool c env.callWrite).1 = none) :
    (searchBody (some c) env parse acts0).1 =
      acts0 ++ [CAction.callTool, CAction.stopClient, CAction.startClient] ++
        (if (tcgStart none env.pollAlive2 env.distExists2 env.sEnv2).1 then
          [CAction.callTool] else []) := by
  rcases hct : call_tool c env.callWrite with ⟨res1, c1, a1⟩
  have hres : res1 = none := by rw [hct] at hnone; exact hnone
  subst hres
  rcases hts : tcgStart none env.pollAlive2 env.distExists2 env.sEnv2 with ⟨ok2, cl2⟩
  cases ok2 with
  | true =>
    obtain ⟨c2, hc2⟩ :=
      tcgStart_true_some none env.pollAlive2 env.distExists2 env.sEnv2 cl2 hts
    subst hc2
    simp [searchBody, hct, hts]
  | false =>
    simp [searchBody, hct, hts]

theorem searchBody_count (client : Option ClientState) (env : TcgEnv)
    (parse : String → Option Val) (acts0 : List CAction) :
    countA CAction.callTool (searchBody client env parse acts0).1 ≤
      countA CAction.callTool acts0 + 2 ∧
    countA CAction.stopClient (searchBody client env parse acts0).1 ≤
      countA CAction.stopClient acts0 + 1 := by
  cases client with
  | none => refine ⟨?_, ?_⟩ <;> simp [searchBody]
  | some c =>
    rcases hct : call_tool c env.callWrite with ⟨res1, c1, a1⟩
    cases res1 with
    | some v =>
      refine ⟨?_, ?_⟩ <;> simp [searchBody, hct, countA_append, countA]
    | none =>
      rcases hts : tcgStart none env.pollAlive2 env.distExists2 env.sEnv2 with ⟨ok2, cl2⟩
      cases ok2 with
      | true =>
        cases cl2 with
        | some c2 =>
          refine ⟨?_, ?_⟩ <;>
            simp [searchBody, hct, hts, countA_append, countA]
        | none =>
          refine ⟨?_, ?_⟩ <;>
            simp [searchBody, hct, hts, countA_append, countA]
      | false =>
        refine ⟨?_, ?_⟩ <;>
          simp [searchBody, hct, hts, countA_append, countA]

/-- A running, initialized client whose next call will exhaust its timeout
budget: the queue trace is a single alive empty slice followed by the end
of the budget. -/
def cTimeout : ClientState := ⟨true, 1, [.empty true], true, true⟩

/-- The reply the restarted generation gives to the initialize request. -/
def rInit : Resp := ⟨some (.num 1), some (.obj [("capabilities", .obj [])]), none⟩

/-- The reply the restarted generation gives to the retried tool call. -/
def rTool2 : Resp := ⟨some (.num 2), some (.str "ok"), none⟩

/-- A `json.loads` behaviour for witnesses: every text fails to decode. -/
def parse0 : String → Option Val := fun _ => none

/-- A concrete `search_cards` environment: the client polls alive, the
first call's write succeeds (and then times out against `cTimeout`), and
the restart succeeds with replies for the handshake and the retry. -/
def envC3 : TcgEnv :=
  ⟨true, true, ⟨true, true, []⟩, true, true, true,
    ⟨true, true, [.msg rInit, .msg rTool2]⟩, true⟩

/-- C3 counterexample: a first call whose failure is specifically a
transport timeout (the wait loop exhausts the budget over alive empty
slices) still triggers the restart: the composite's trace contains the
stop, the restart and the retried call, contradicting the claim that a
timeout returns an error without any stop/start/retry cycle. -/
theorem c3_counterexample :
    (waitLoop (cTimeout.requestId + 1) cTimeout.inbox).1 = CallOutcome.timedOut ∧
    (search_cards (some cTimeout) envC3 parse0).1 =
      [CAction.callTool, CAction.stopClient, CAction.startClient,
        CAction.callTool] :=
  ⟨rfl, rfl⟩

/-- C3 (amended): `search_cards` does not distinguish a transport timeout
from any other cause of a null result.  Whenever the first underlying call
returns None — timeout included — it performs the single stop() + start() +
retry cycle, retrying exactly once when the restart succeeds and giving up
without a call when the restart fails. -/
theorem c3_null_restart :
    ∀ (c : ClientState) (env : TcgEnv) (parse : String → Option Val),
      is_running c env.pollAlive = true →
      (call_tool c env.callWrite).1 = none →
      (search_cards (some c) env parse).1 =
        [CAction.callTool, CAction.stopClient, CAction.startClient] ++
          (if (tcgStart none env.pollAlive2 env.distExists2 env.sEnv2).1 then
            [CAction.callTool] else []) := by
  intro c env parse hrun hnone
  simp only [search_cards, hrun, if_true]
  rw [searchBody_null_trace c env parse [] hnone]
  simp

theorem c3_null_restart_witness :
    (search_cards (some cTimeout) envC3 parse0).1 =
      [CAction.callTool, CAction.stopClient, CAction.startClient] ++
        (if (tcgStart none envC3.pollAlive2 envC3.distExists2 envC3.sEnv2).1 then
          [CAction.callTool] else []) :=
  c3_null_restart cTimeout envC3 parse0 rfl rfl

/-- A concrete `get_card_price` environment matching `envC3`'s first
phase. -/
def envP : PriceEnv := ⟨true, true, ⟨true, true, []⟩, true⟩

/-- C4 counterexample: `get_card_price`, although covered by the claim's
restart policy, performs no stop/start/retry at all — on a first call that
yields no response it makes exactly one underlying call, never stops or
restarts, and returns the error dict directly. -/
theorem c4_counterexample :
    (call_tool cTimeout envP.callWrite).1 = none ∧
    (get_card_price (some cTimeout) envP parse0).1 = [CAction.callTool] ∧
    (get_card_price (some cTimeout) envP parse0).2.1 = Except.ok errNoResponse :=
  ⟨rfl, rfl, rfl⟩

/-- C4 (amended): the restart-retry cap holds, but the exactly-one-restart
behaviour belongs to `search_cards` alone: `search_cards` invokes the
underlying call at most twice and stops at most once — exactly once when
the first call yields no result — while `get_card_price` never stops (no
retry) and invokes the underlying call at most once. -/
theorem search_counts (client : Option ClientState) (env : TcgEnv)
    (parse : String → Option Val) :
    countA CAction.callTool (search_cards client env parse).1 ≤ 2 ∧
    countA CAction.stopClient (search_cards client env parse).1 ≤ 1 := by
  have key : ∀ (cl : Option ClientState) (acts0 : List CAction),
      countA CAction.callTool acts0 = 0 →
      countA CAction.stopClient acts0 = 0 →
      countA CAction.callTool (searchBody cl env parse acts0).1 ≤ 2 ∧
      countA CAction.stopClient (searchBody cl env parse acts0).1 ≤ 1 := by
    intro cl acts0 h1 h2
    have hb := searchBody_count cl env parse acts0
    have hb1 := hb.1
    have hb2 := hb.2
    exact ⟨by omega, by omega⟩
  cases client with
  | none =>
    rcases hts : tcgStart none env.pollAlive env.distExists env.sEnv with ⟨ok, cl1⟩
    cases ok with
    | true =>
      simp only [search_cards, hts]
      exact key cl1 [CAction.startClient] rfl rfl
    | false =>
      refine ⟨?_, ?_⟩ <;> simp [search_cards, hts, countA]
  | some c =>
    cases hr : is_running c env.pollAlive with
    | true =>
      simp only [search_cards, hr, if_true]
      exact key (some c) [] rfl rfl
    | false =>
      rcases hts : tcgStart (some c) env.pollAlive env.distExists env.sEnv with ⟨ok, cl1⟩
      cases ok with
      | true =>
        simp only [search_cards, hr, hts, Bool.false_eq_true, if_false]
        exact key cl1 [CAction.startClient] rfl rfl
      | false =>
        simp only [search_cards, hr, hts, Bool.false_eq_true, if_false]
        exact ⟨by decide, by decide⟩

theorem price_counts (client : Option ClientState) (penv : PriceEnv)
    (parse : String → Option Val) :
    countA CAction.callTool (get_card_price client penv parse).1 ≤ 1 ∧
    countA CAction.stopClient (get_card_price client penv parse).1 = 0 := by
  cases client with
  | none =>
    rcases hts : tcgStart none penv.pollAlive penv.distExists penv.sEnv with ⟨ok, cl1⟩
    cases ok with
    | true =>
      cases cl1 with
      | some c1 => simp [get_card_price, hts, countA_append, countA]
      | none => simp [get_card_price, hts, countA]
    | false => simp [get_card_price, hts, countA]
  | some c =>
    cases hr : is_running c penv.pollAlive with
    | true => simp [get_card_price, hr, countA_append, countA]
    | false =>
      rcases hts : tcgStart (some c) penv.pollAlive penv.distExists penv.sEnv with ⟨ok, cl1⟩
      cases ok with
      | true =>
        cases cl1 with
        | some c1 => simp [get_card_price, hr, hts, countA_append, countA]
        | none => simp [get_card_price, hr, hts, countA]
      | false => simp [get_card_price, hr, hts, countA]

/-- C4 (amended): the restart-retry cap holds, but the
exactly-one-restart-and-retry behaviour belongs to `search_cards` alone:
`search_cards` invokes the underlying call at most twice and stops at most
once — exactly once whenever the first call yields no result — while
`get_card_price` never performs a stop (no retry) and invokes the
underlying call at most once. -/
theorem c4_retry_cap :
    ∀ (client : Option ClientState) (env : TcgEnv) (penv : PriceEnv)
      (parse : String → Option Val),
      (countA CAction.callTool (search_cards client env parse).1 ≤ 2 ∧
        countA CAction.stopClient (search_cards client env parse).1 ≤ 1) ∧
      (countA CAction.callTool (get_card_price client penv parse).1 ≤ 1 ∧
        countA CAction.stopClient (get_card_price client penv parse).1 = 0) ∧
      (∀ c : ClientState, is_running c env.pollAlive = true →
        (call_tool c env.callWrite).1 = none →
        countA CAction.stopClient (search_cards (some c) env parse).1 = 1) := by
  intro client env penv parse
  refine ⟨search_counts client env parse, price_counts client penv parse, ?_⟩
  intro c hrun hnone
  simp only [search_cards, hrun, if_true]
  rw [searchBody_null_trace c env parse [] hnone]
  rcases Bool.eq_false_or_eq_true
      (tcgStart none env.pollAlive2 env.distExists2 env.sEnv2).1 with hok | hok <;>
    simp [hok, countA_append, countA]

theorem c4_retry_cap_witness :
    countA CAction.stopClient (search_cards (some cTimeout) envC3 parse0).1 = 1 :=
  (c4_retry_cap (some cTimeout) envC3 envP parse0).2.2 cTimeout rfl rfl

/-- A matched tool reply whose result payload is schema-violating: its
`content` list holds a number instead of an object. -/
def badResp : Resp :=
  ⟨some (.num 2), some (.obj [("content", .arr [.num 42])]), none⟩

/-- A running, initialized client about to receive `badResp`. -/
def cBad : ClientState := ⟨true, 1, [.msg badResp], true, true⟩

/-- A `search_cards` environment whose entry check polls alive. -/
def envC9 : TcgEnv :=
  ⟨true, true, ⟨true, true, []⟩, true, true, true, ⟨true, true, []⟩, true⟩

/-- C9 counterexample: the claim says no operation of the surface raises
for any failure mode, malformed output included, but a matched reply whose
result payload deviates from the expected schema makes `search_cards`
raise: iterating `result["content"]` yields the number 42, and
`content.get("type")` on a number raises AttributeError, which no except
clause catches. -/
theorem c9_counterexample :
    (search_cards (some cBad) envC9 parse0).2.1 =
      Except.error PyErr.attributeError :=
  rfl

/-- C9 (amended): every failure mode named by the claim surfaces as an
ordinary return value — launch failure makes `start` return False with the
state unchanged, `stop` absorbs terminate/kill failures, a write failure
makes `call_tool` return None, and the composites return error dicts when
the server cannot be started, cannot be restarted, or yields no response
even after the restart-and-retry — but the composites' parsing of a
matched result payload is not exception-free (see the counterexample). -/
theorem c9_containment :
    (∀ (s : ClientState) (env : StartEnv), env.spawnOk = false →
      start s env = (false, s, [])) ∧
    (∀ (s : ClientState) (t k : Bool), stop s t k = resetState) ∧
    (∀ s : ClientState, (call_tool s false).1 = none) ∧
    (∀ (env : TcgEnv) (parse : String → Option Val), env.distExists = false →
      search_cards none env parse =
        ([CAction.startClient], Except.ok (errDict "Failed to start MCP server"),
          none)) ∧
    (∀ (c : ClientState) (env : TcgEnv) (parse : String → Option Val),
      is_running c env.pollAlive = true →
      (call_tool c env.callWrite).1 = none →
      env.distExists2 = false →
      (search_cards (some c) env parse).2.1 =
        Except.ok (errDict "Failed to restart MCP server")) ∧
    (∀ (c c2 : ClientState) (env : TcgEnv) (parse : String → Option Val),
      is_running c env.pollAlive = true →
      (call_tool c env.callWrite).1 = none →
      tcgStart none env.pollAlive2 env.distExists2 env.sEnv2 = (true, some c2) →
      (call_tool c2 env.callWrite2).1 = none →
      (search_cards (some c) env parse).2.1 = Except.ok errNoResponse) := by
  refine ⟨?_, ?_, ?_, ?_, ?_, ?_⟩
  · intro s env h
    simp [start, h]
  · intro s t k
    rfl
  · intro s
    by_cases hi : s.initialized = true
    · by_cases hp : s.hasProcess = true <;> simp [call_tool, sendRequest, hi, hp]
    · simp [call_tool, hi]
  · intro env parse h
    simp [search_cards, tcgStart, h]
  · intro c env parse hrun hnone hd2
    rcases hct : call_tool c env.callWrite with ⟨res1, c1, a1⟩
    have hr1 : res1 = none := by rw [hct] at hnone; exact hnone
    subst hr1
    simp only [search_cards, hrun, if_true]
    simp [searchBody, hct, tcgStart, hd2]
  · intro c c2 env parse hrun hnone hts hnone2
    rcases hct : call_tool c env.callWrite with ⟨res1, c1, a1⟩
    have hr1 : res1 = none := by rw [hct] at hnone; exact hnone
    subst hr1
    rcases hct2 : call_tool c2 env.callWrite2 with ⟨res2, c2', a2⟩
    have hr2 : res2 = none := by rw [hct2] at hnone2; exact hnone2
    subst hr2
    simp only [search_cards, hrun, if_true]
    simp [searchBody, hct, hts, hct2, searchPost]

/-- A `search_cards` environment in which neither the first start nor the
restart can find the built server entry point. -/
def envNoDist : TcgEnv :=
  ⟨true, false, ⟨true, true, []⟩, true, true, false, ⟨true, true, []⟩, true⟩

theorem c9_containment_witness :
    search_cards none envNoDist parse0 =
      ([CAction.startClient], Except.ok (errDict "Failed to start MCP server"),
        none) :=
  c9_containment.2.2.2.1 envNoDist parse0 rfl

/-- C10: error replies are not no-result.  A matched Response Envelope that
is an error envelope (it has an `error` member and no `result` member)
makes `call_tool` return the dict containing that error — not None — and
consequently a first `call_tool` result that is non-None, as every error
reply is, makes `search_cards` perform no stop and no restart: the
restart-and-retry fires only on the None result. -/
theorem c10_error_not_null :
    (∀ (s : ClientState) (w : Bool) (r : Resp) (e : Val),
      s.initialized = true →
      (sendRequest s "tools/call" w).1 = some r →
      r.result? = none →
      r.error? = some e →
      (call_tool s w).1 = some (Val.obj [("error", e)])) ∧
    (∀ (c : ClientState) (env : TcgEnv) (parse : String → Option Val) (v : Val),
      is_running c env.pollAlive = true →
      (call_tool c env.callWrite).1 = some v →
      countA CAction.stopClient (search_cards (some c) env parse).1 = 0 ∧
      countA CAction.startClient (search_cards (some c) env parse).1 = 0) := by
  constructor
  · intro s w r e hi hsr hres herr
    rcases hfull : sendRequest s "tools/call" w with ⟨r?, s2, acts⟩
    have hr : r? = some r := by rw [hfull] at hsr; exact hsr
    subst hr
    simp [call_tool, hi, hfull, hres, herr]
  · intro c env parse v hrun hct
    rcases hfull : call_tool c env.callWrite with ⟨res1, c1, a1⟩
    have hr : res1 = some v := by rw [hfull] at hct; exact hct
    subst hr
    simp only [search_cards, hrun, if_true]
    simp [searchBody, hfull, countA, countA_append]

/-- A running, initialized client whose next reply is the error envelope
`errResp`. -/
def cErr : ClientState := ⟨true, 0, [.msg errResp], true, true⟩

theorem c10_error_not_null_witness :
    (call_tool cErr true).1 = some (Val.obj [("error", Val.str "boom")]) :=
  c10_error_not_null.1 cErr true errResp (Val.str "boom") rfl rfl rfl rfl

end Pokedex
